import Mathlib

/-
Verification of `src/drizzle-orm/src/sql/functions/full-text-search.ts`:
a family of builders for PostgreSQL full-text-search SQL fragments
(`to_tsvector`, `to_tsquery`, `plainto_tsquery`, `phraseto_tsquery`,
`websearch_to_tsquery`, `ts_rank`, `ts_rank_cd`, `setweight`).

The module is a pure fragment builder: each operation classifies its
variable-arity argument list at runtime (JavaScript `Array.isArray`,
`typeof`, truthiness and `!== undefined` tests) and hands a fixed textual
template together with the interpolated values to the opaque tagged-template
composer `sql` imported from `../sql.ts`.
-/

namespace FullTextSearch

/-- A JavaScript number as this module observes it: the module only ever
converts a number to its string form (`Array.prototype.join` uses the
generic `toString` conversion, which the spec leaves unspecified, so it is
kept abstract as a field) and tests its truthiness (a JS number is falsy
exactly when it is `0`, `-0` or `NaN`, recorded here by the `falsy` flag). -/
structure JSNum where
  toStr : String
  falsy : Bool
deriving DecidableEq

mutual

/-- A runtime value that can be passed to one of the exported operations or
interpolated into a fragment: a string, a number, an opaque column reference
(`AnyPgColumn`), a numeric array (`number[]`), or a previously built SQL
fragment. -/
inductive Value : Type where
  | str (s : String)
  | num (n : JSNum)
  | col (name : String)
  | arr (xs : List JSNum)
  | frag (f : List Chunk)

/-- One chunk of a composed fragment: either a piece of the template's
literal SQL text or an interpolated (bound) value occupying a slot. -/
inductive Chunk : Type where
  | text (s : String)
  | bound (v : Value)

end

/-- The opaque fragment type `SQL`, as a sequence of chunks. -/
abbrev SQLFrag := List Chunk

/-- Modelled from the spec: the fragment-composition primitive `sql`
(a JavaScript tagged template defined in `../sql.ts`, outside this module).
Per the spec it builds an immutable fragment from a template with embedded
interpolation slots, preserving argument-to-placeholder binding: the literal
text pieces of the template alternate with the interpolated values. -/
def sqlTag : List String → List Value → SQLFrag
  | [], _ => []
  | s :: ss, [] => Chunk.text s :: sqlTag ss []
  | s :: ss, v :: vs => Chunk.text s :: Chunk.bound v :: sqlTag ss vs

/-- JavaScript truthiness of a `Value`: the empty string, `0`, `-0` and
`NaN` are falsy; every object (column, array, fragment) is truthy. -/
def Value.truthy : Value → Bool
  | .str s => !s.isEmpty
  | .num n => !n.falsy
  | .col _ => true
  | .arr _ => true
  | .frag _ => true

/-- JavaScript truthiness of an optional argument: a missing argument is
`undefined`, which is falsy. -/
def optTruthy : Option Value → Bool
  | none => false
  | some v => v.truthy

/-- `Array.isArray(v)`. -/
def Value.isArray : Value → Bool
  | .arr _ => true
  | _ => false

/-- `typeof v === 'number'`. -/
def Value.isNumber : Value → Bool
  | .num _ => true
  | _ => false

/-- The element list of an array value (empty for non-arrays; only read
under an `isArray` guard, mirroring the source's narrowing). -/
def Value.arrElems : Value → List JSNum
  | .arr xs => xs
  | _ => []

/-- `xs.join(',')`: each element converted by the generic string
conversion, joined with commas (the empty array joins to the empty
string). -/
def joinComma (xs : List JSNum) : String :=
  String.intercalate "," (xs.map JSNum.toStr)

/-- `to_tsvector(arg1, arg2?)`: `arg2 ? sql`to_tsvector(${arg1}, ${arg2})`
: sql`to_tsvector(${arg1})``. -/
def to_tsvector (arg1 : Value) (arg2 : Option Value) : SQLFrag :=
  match arg2 with
  | some a2 =>
    if a2.truthy then sqlTag ["to_tsvector(", ", ", ")"] [arg1, a2]
    else sqlTag ["to_tsvector(", ")"] [arg1]
  | none => sqlTag ["to_tsvector(", ")"] [arg1]

/-- `to_tsquery(arg1, arg2?)`: `arg2 ? sql`to_tsquery(${arg1}, ${arg2})`
: sql`to_tsquery(${arg1})``. -/
def to_tsquery (arg1 : Value) (arg2 : Option Value) : SQLFrag :=
  match arg2 with
  | some a2 =>
    if a2.truthy then sqlTag ["to_tsquery(", ", ", ")"] [arg1, a2]
    else sqlTag ["to_tsquery(", ")"] [arg1]
  | none => sqlTag ["to_tsquery(", ")"] [arg1]

/-- `plainto_tsquery(arg1, arg2?)`. -/
def plainto_tsquery (arg1 : Value) (arg2 : Option Value) : SQLFrag :=
  match arg2 with
  | some a2 =>
    if a2.truthy then sqlTag ["plainto_tsquery(", ", ", ")"] [arg1, a2]
    else sqlTag ["plainto_tsquery(", ")"] [arg1]
  | none => sqlTag ["plainto_tsquery(", ")"] [arg1]

/-- `phraseto_tsquery(arg1, arg2?)`. -/
def phraseto_tsquery (arg1 : Value) (arg2 : Option Value) : SQLFrag :=
  match arg2 with
  | some a2 =>
    if a2.truthy then sqlTag ["phraseto_tsquery(", ", ", ")"] [arg1, a2]
    else sqlTag ["phraseto_tsquery(", ")"] [arg1]
  | none => sqlTag ["phraseto_tsquery(", ")"] [arg1]

/-- `websearch_to_tsquery(arg1, arg2?)`. -/
def websearch_to_tsquery (arg1 : Value) (arg2 : Option Value) : SQLFrag :=
  match arg2 with
  | some a2 =>
    if a2.truthy then sqlTag ["websearch_to_tsquery(", ", ", ")"] [arg1, a2]
    else sqlTag ["websearch_to_tsquery(", ")"] [arg1]
  | none => sqlTag ["websearch_to_tsquery(", ")"] [arg1]

/-- `ts_rank(arg1, arg2, arg3?, arg4?)`: if
`Array.isArray(arg1) && typeof arg2 !== 'number' && arg3 !== undefined`
the weights path renders
`ts_rank(string_to_array(${arg1.join(',')}, ',')::float4[], ${arg2},
${arg3}[, ${arg4}])`, with the trailing slot present when `arg4` is truthy;
otherwise `arg3 ? ts_rank(${arg1}, ${arg2}, ${arg3})
: ts_rank(${arg1}, ${arg2})`. -/
def ts_rank (arg1 arg2 : Value) (arg3 arg4 : Option Value) : SQLFrag :=
  if arg1.isArray && !arg2.isNumber && arg3.isSome then
    if optTruthy arg4 then
      sqlTag ["ts_rank(string_to_array(", ", \x27,\x27)::float4[], ", ", ", ", ", ")"]
        [Value.str (joinComma arg1.arrElems), arg2, arg3.getD (Value.str ""),
          arg4.getD (Value.str "")]
    else
      sqlTag ["ts_rank(string_to_array(", ", \x27,\x27)::float4[], ", ", ", ")"]
        [Value.str (joinComma arg1.arrElems), arg2, arg3.getD (Value.str "")]
  else
    if optTruthy arg3 then
      sqlTag ["ts_rank(", ", ", ", ", ")"] [arg1, arg2, arg3.getD (Value.str "")]
    else
      sqlTag ["ts_rank(", ", ", ")"] [arg1, arg2]

/-- `ts_rank_cd(arg1, arg2, arg3?, arg4?)`: same dispatch as `ts_rank`,
with the `ts_rank_cd` SQL keyword. -/
def ts_rank_cd (arg1 arg2 : Value) (arg3 arg4 : Option Value) : SQLFrag :=
  if arg1.isArray && !arg2.isNumber && arg3.isSome then
    if optTruthy arg4 then
      sqlTag ["ts_rank_cd(string_to_array(", ", \x27,\x27)::float4[], ", ", ", ", ", ")"]
        [Value.str (joinComma arg1.arrElems), arg2, arg3.getD (Value.str ""),
          arg4.getD (Value.str "")]
    else
      sqlTag ["ts_rank_cd(string_to_array(", ", \x27,\x27)::float4[], ", ", ", ")"]
        [Value.str (joinComma arg1.arrElems), arg2, arg3.getD (Value.str "")]
  else
    if optTruthy arg3 then
      sqlTag ["ts_rank_cd(", ", ", ", ", ")"] [arg1, arg2, arg3.getD (Value.str "")]
    else
      sqlTag ["ts_rank_cd(", ", ", ")"] [arg1, arg2]

/-- The weight-label type `Weight = 'A' | 'B' | 'C' | 'D'`. -/
inductive Weight : Type where
  | A | B | C | D
deriving DecidableEq

/-- The string a weight label stands for. -/
def Weight.toStr : Weight → String
  | .A => "A"
  | .B => "B"
  | .C => "C"
  | .D => "D"

/-- `setweight(vector, weight)`: `sql`setweight(${vector}, ${weight})``. -/
def setweight (vector : SQLFrag) (weight : Weight) : SQLFrag :=
  sqlTag ["setweight(", ", ", ")"] [Value.frag vector, Value.str weight.toStr]

/-- The fragment's raw SQL text: literal pieces concatenated, each bound
slot shown as a placeholder. -/
def queryText : SQLFrag → String
  | [] => ""
  | Chunk.text s :: rest => s ++ queryText rest
  | Chunk.bound _ :: rest => "?" ++ queryText rest

/-- The fragment's interpolation bindings, in slot order. -/
def bindingsOf : SQLFrag → List Value
  | [] => []
  | Chunk.text _ :: rest => bindingsOf rest
  | Chunk.bound v :: rest => v :: bindingsOf rest

/-- Whether `pat` occurs at the start of `s`. -/
def leadsWith : List Char → List Char → Bool
  | [], _ => true
  | _ :: _, [] => false
  | a :: as, b :: bs => a == b && leadsWith as bs

/-- Whether `pat` occurs somewhere inside `s`. -/
def containsSub (pat : List Char) : List Char → Bool
  | [] => leadsWith pat []
  | c :: rest => leadsWith pat (c :: rest) || containsSub pat rest

/-- Whether the literal SQL text of a fragment mentions `string_to_array`,
i.e. whether a weights segment was rendered. -/
def mentionsStringToArray (f : SQLFrag) : Bool :=
  containsSub "string_to_array".data (queryText f).data

lemma ts_rank_eq (a1 a2 : Value) (a3 a4 : Option Value) :
    ts_rank a1 a2 a3 a4 =
      if a1.isArray && !a2.isNumber && a3.isSome then
        if optTruthy a4 then
          [Chunk.text "ts_rank(string_to_array(",
            Chunk.bound (Value.str (joinComma a1.arrElems)),
            Chunk.text ", \x27,\x27)::float4[], ", Chunk.bound a2, Chunk.text ", ",
            Chunk.bound (a3.getD (Value.str "")), Chunk.text ", ",
            Chunk.bound (a4.getD (Value.str "")), Chunk.text ")"]
        else
          [Chunk.text "ts_rank(string_to_array(",
            Chunk.bound (Value.str (joinComma a1.arrElems)),
            Chunk.text ", \x27,\x27)::float4[], ", Chunk.bound a2, Chunk.text ", ",
            Chunk.bound (a3.getD (Value.str "")), Chunk.text ")"]
      else
        if optTruthy a3 then
          [Chunk.text "ts_rank(", Chunk.bound a1, Chunk.text ", ", Chunk.bound a2,
            Chunk.text ", ", Chunk.bound (a3.getD (Value.str "")), Chunk.text ")"]
        else
          [Chunk.text "ts_rank(", Chunk.bound a1, Chunk.text ", ", Chunk.bound a2,
            Chunk.text ")"] := rfl

lemma ts_rank_cd_eq (a1 a2 : Value) (a3 a4 : Option Value) :
    ts_rank_cd a1 a2 a3 a4 =
      if a1.isArray && !a2.isNumber && a3.isSome then
        if optTruthy a4 then
          [Chunk.text "ts_rank_cd(string_to_array(",
            Chunk.bound (Value.str (joinComma a1.arrElems)),
            Chunk.text ", \x27,\x27)::float4[], ", Chunk.bound a2, Chunk.text ", ",
            Chunk.bound (a3.getD (Value.str "")), Chunk.text ", ",
            Chunk.bound (a4.getD (Value.str "")), Chunk.text ")"]
        else
          [Chunk.text "ts_rank_cd(string_to_array(",
            Chunk.bound (Value.str (joinComma a1.arrElems)),
            Chunk.text ", \x27,\x27)::float4[], ", Chunk.bound a2, Chunk.text ", ",
            Chunk.bound (a3.getD (Value.str "")), Chunk.text ")"]
      else
        if optTruthy a3 then
          [Chunk.text "ts_rank_cd(", Chunk.bound a1, Chunk.text ", ", Chunk.bound a2,
            Chunk.text ", ", Chunk.bound (a3.getD (Value.str "")), Chunk.text ")"]
        else
          [Chunk.text "ts_rank_cd(", Chunk.bound a1, Chunk.text ", ", Chunk.bound a2,
            Chunk.text ")"] := rfl

/-- C9: for every vector fragment and weight label, `setweight` renders
exactly the fixed two-slot template `setweight(<vector>, <label>)`, the
vector bound in the first slot and the label in the second; the operation
has a single call shape with no dispatch and no optional arguments. -/
theorem C9_setweight_fixed_shape :
    ∀ (v : SQLFrag) (w : Weight),
      setweight v w =
        [Chunk.text "setweight(", Chunk.bound (Value.frag v), Chunk.text ", ",
          Chunk.bound (Value.str (Weight.toStr w)), Chunk.text ")"] ∧
      queryText (setweight v w) = "setweight(?, ?)" ∧
      bindingsOf (setweight v w) = [Value.frag v, Value.str (Weight.toStr w)] :=
  fun _ _ => ⟨rfl, rfl, rfl⟩

/-- C4: a 2-argument call to `ts_rank` or `ts_rank_cd` whose first argument
is a numeric array is never classified as having weights: with `arg3`
absent the guard fails, the call takes the no-weights path, and the 2-slot
template is rendered with the array itself interpolated into the vector
slot (any failure on such a value is the fragment composer's to raise); no
weights segment is rendered. -/
theorem C4_two_arg_array_not_weights :
    ∀ (w : List JSNum) (a2 : Value),
      ts_rank (Value.arr w) a2 none none =
        [Chunk.text "ts_rank(", Chunk.bound (Value.arr w), Chunk.text ", ",
          Chunk.bound a2, Chunk.text ")"] ∧
      ts_rank_cd (Value.arr w) a2 none none =
        [Chunk.text "ts_rank_cd(", Chunk.bound (Value.arr w), Chunk.text ", ",
          Chunk.bound a2, Chunk.text ")"] ∧
      mentionsStringToArray (ts_rank (Value.arr w) a2 none none) = false ∧
      mentionsStringToArray (ts_rank_cd (Value.arr w) a2 none none) = false := by
  intro w a2
  have h1 : ts_rank (Value.arr w) a2 none none =
      [Chunk.text "ts_rank(", Chunk.bound (Value.arr w), Chunk.text ", ",
        Chunk.bound a2, Chunk.text ")"] := by
    rw [ts_rank_eq]; simp [optTruthy]
  have h2 : ts_rank_cd (Value.arr w) a2 none none =
      [Chunk.text "ts_rank_cd(", Chunk.bound (Value.arr w), Chunk.text ", ",
        Chunk.bound a2, Chunk.text ")"] := by
    rw [ts_rank_cd_eq]; simp [optTruthy]
  exact ⟨h1, h2, by rw [h1]; rfl, by rw [h2]; rfl⟩

/-- C2: a 3-argument weights call `ts_rank(w, vector, query)` (and likewise
`ts_rank_cd`) renders the elements of `w` joined with commas inside the
`string_to_array(<slot>, \x27,\x27)::float4[]` cast expression, placed
before the vector and query slots; an omitted weights argument (the
`(vector, query, normalization?)` form) produces a fragment with no weights
segment at all. -/
theorem C2_weights_segment_placement :
    ∀ (w : List JSNum) (v q : SQLFrag) (n : JSNum),
      ts_rank (Value.arr w) (Value.frag v) (some (Value.frag q)) none =
        [Chunk.text "ts_rank(string_to_array(",
          Chunk.bound (Value.str (joinComma w)),
          Chunk.text ", \x27,\x27)::float4[], ", Chunk.bound (Value.frag v),
          Chunk.text ", ", Chunk.bound (Value.frag q), Chunk.text ")"] ∧
      ts_rank_cd (Value.arr w) (Value.frag v) (some (Value.frag q)) none =
        [Chunk.text "ts_rank_cd(string_to_array(",
          Chunk.bound (Value.str (joinComma w)),
          Chunk.text ", \x27,\x27)::float4[], ", Chunk.bound (Value.frag v),
          Chunk.text ", ", Chunk.bound (Value.frag q), Chunk.text ")"] ∧
      mentionsStringToArray (ts_rank (Value.frag v) (Value.frag q) none none) = false ∧
      mentionsStringToArray
        (ts_rank (Value.frag v) (Value.frag q) (some (Value.num n)) none) = false ∧
      mentionsStringToArray (ts_rank_cd (Value.frag v) (Value.frag q) none none) = false ∧
      mentionsStringToArray
        (ts_rank_cd (Value.frag v) (Value.frag q) (some (Value.num n)) none) = false := by
  intro w v q n
  rcases n with ⟨ts, fl⟩
  exact ⟨rfl, rfl, rfl, by cases fl <;> rfl, rfl, by cases fl <;> rfl⟩

/-- C10: an empty weights array still satisfies the weights guard, so a
3-or-4-argument call `ts_rank([], vector, query, normalization?)` (and
likewise `ts_rank_cd`) renders the weights segment, with the join of the
empty array — the empty string — bound in the `string_to_array` slot; the
empty array is not treated as an absent weights argument. -/
theorem C10_empty_weights_array :
    ∀ (v q : SQLFrag) (a4 : Option Value),
      mentionsStringToArray
        (ts_rank (Value.arr []) (Value.frag v) (some (Value.frag q)) a4) = true ∧
      (bindingsOf
        (ts_rank (Value.arr []) (Value.frag v) (some (Value.frag q)) a4)).head? =
          some (Value.str "") ∧
      mentionsStringToArray
        (ts_rank_cd (Value.arr []) (Value.frag v) (some (Value.frag q)) a4) = true ∧
      (bindingsOf
        (ts_rank_cd (Value.arr []) (Value.frag v) (some (Value.frag q)) a4)).head? =
          some (Value.str "") ∧
      ts_rank (Value.arr []) (Value.frag v) (some (Value.frag q)) none =
        [Chunk.text "ts_rank(string_to_array(", Chunk.bound (Value.str ""),
          Chunk.text ", \x27,\x27)::float4[], ", Chunk.bound (Value.frag v),
          Chunk.text ", ", Chunk.bound (Value.frag q), Chunk.text ")"] ∧
      ts_rank_cd (Value.arr []) (Value.frag v) (some (Value.frag q)) none =
        [Chunk.text "ts_rank_cd(string_to_array(", Chunk.bound (Value.str ""),
          Chunk.text ", \x27,\x27)::float4[], ", Chunk.bound (Value.frag v),
          Chunk.text ", ", Chunk.bound (Value.frag q), Chunk.text ")"] := by
  intro v q a4
  have h4 : optTruthy a4 = true ∨ optTruthy a4 = false := by
    cases optTruthy a4 <;> simp
  refine ⟨?_, ?_, ?_, ?_, rfl, rfl⟩ <;>
    · simp only [ts_rank_eq, ts_rank_cd_eq]
      rcases h4 with h | h <;> simp only [h] <;> rfl

/-- C7 counterexample: in the weights path the comma-joined weight sequence
is not part of the fragment's literal SQL text: at weights
`[0.1, 0.2, 0.4, 0.3]` the joined string `0.1,0.2,0.4,0.3` appears as the
first interpolation binding, and the literal text (bound slots shown as
`?`) is exactly `ts_rank(string_to_array(?, \x27,\x27)::float4[], ?, ?)`,
which does not contain the joined sequence. -/
theorem C7_counterexample :
    bindingsOf (ts_rank
        (Value.arr [⟨"0.1", false⟩, ⟨"0.2", false⟩, ⟨"0.4", false⟩, ⟨"0.3", false⟩])
        (Value.frag []) (some (Value.frag [])) none) =
      [Value.str "0.1,0.2,0.4,0.3", Value.frag [], Value.frag []] ∧
    queryText (ts_rank
        (Value.arr [⟨"0.1", false⟩, ⟨"0.2", false⟩, ⟨"0.4", false⟩, ⟨"0.3", false⟩])
        (Value.frag []) (some (Value.frag [])) none) =
      "ts_rank(string_to_array(?, \x27,\x27)::float4[], ?, ?)" ∧
    containsSub "0.1,0.2,0.4,0.3".data (queryText (ts_rank
        (Value.arr [⟨"0.1", false⟩, ⟨"0.2", false⟩, ⟨"0.4", false⟩, ⟨"0.3", false⟩])
        (Value.frag []) (some (Value.frag [])) none)).data = false := by
  exact ⟨rfl, rfl, by decide⟩

/-- C7 amended: in the weights path of `ts_rank` and `ts_rank_cd` the
comma-joined numeric weight sequence is passed to the composer as an
interpolated (bound) string value occupying the first slot of the fragment,
inside the literal text `string_to_array(<slot>, \x27,\x27)::float4[]`; it
is not part of the fragment's fixed SQL text. -/
theorem C7_amended :
    ∀ (w : List JSNum) (v q : SQLFrag),
      bindingsOf (ts_rank (Value.arr w) (Value.frag v) (some (Value.frag q)) none) =
        [Value.str (joinComma w), Value.frag v, Value.frag q] ∧
      queryText (ts_rank (Value.arr w) (Value.frag v) (some (Value.frag q)) none) =
        "ts_rank(string_to_array(?, \x27,\x27)::float4[], ?, ?)" ∧
      bindingsOf (ts_rank_cd (Value.arr w) (Value.frag v) (some (Value.frag q)) none) =
        [Value.str (joinComma w), Value.frag v, Value.frag q] ∧
      queryText (ts_rank_cd (Value.arr w) (Value.frag v) (some (Value.frag q)) none) =
        "ts_rank_cd(string_to_array(?, \x27,\x27)::float4[], ?, ?)" :=
  fun _ _ _ => ⟨rfl, rfl, rfl, rfl⟩

/-- C1 counterexample: a trailing normalization argument with value 0 is
dropped, not rendered: both the weights and no-weights calls of `ts_rank`
and `ts_rank_cd` with normalization 0 produce exactly the fragment of the
call without a normalization argument, whose three bindings carry no
normalization value. -/
theorem C1_counterexample :
    ts_rank (Value.arr [⟨"0.1", false⟩, ⟨"0.2", false⟩]) (Value.frag [])
        (some (Value.frag [])) (some (Value.num ⟨"0", true⟩)) =
      ts_rank (Value.arr [⟨"0.1", false⟩, ⟨"0.2", false⟩]) (Value.frag [])
        (some (Value.frag [])) none ∧
    ts_rank_cd (Value.arr [⟨"0.1", false⟩, ⟨"0.2", false⟩]) (Value.frag [])
        (some (Value.frag [])) (some (Value.num ⟨"0", true⟩)) =
      ts_rank_cd (Value.arr [⟨"0.1", false⟩, ⟨"0.2", false⟩]) (Value.frag [])
        (some (Value.frag [])) none ∧
    ts_rank (Value.frag []) (Value.frag []) (some (Value.num ⟨"0", true⟩)) none =
      ts_rank (Value.frag []) (Value.frag []) none none ∧
    bindingsOf (ts_rank (Value.arr [⟨"0.1", false⟩, ⟨"0.2", false⟩]) (Value.frag [])
        (some (Value.frag [])) (some (Value.num ⟨"0", true⟩))) =
      [Value.str "0.1,0.2", Value.frag [], Value.frag []] ∧
    queryText (ts_rank (Value.frag []) (Value.frag [])
        (some (Value.num ⟨"0", true⟩)) none) = "ts_rank(?, ?)" :=
  ⟨rfl, rfl, rfl, rfl, rfl⟩

/-- C1 amended: the trailing normalization argument is rendered only when
it is truthy: a present-but-falsy numeric normalization (the value 0) is
treated exactly like an absent one and its slot is omitted from the
fragment, for `ts_rank` and `ts_rank_cd` both with and without a weights
argument. -/
theorem C1_amended_zero_normalization_dropped :
    ∀ (a1 a2 : Value) (a3 : Option Value) (v q : SQLFrag) (n : JSNum),
      n.falsy = true →
      (ts_rank a1 a2 a3 (some (Value.num n)) = ts_rank a1 a2 a3 none ∧
       ts_rank_cd a1 a2 a3 (some (Value.num n)) = ts_rank_cd a1 a2 a3 none ∧
       ts_rank (Value.frag v) (Value.frag q) (some (Value.num n)) none =
         ts_rank (Value.frag v) (Value.frag q) none none ∧
       ts_rank_cd (Value.frag v) (Value.frag q) (some (Value.num n)) none =
         ts_rank_cd (Value.frag v) (Value.frag q) none none) := by
  intro a1 a2 a3 v q n hn
  refine ⟨?_, ?_, ?_, ?_⟩ <;>
    simp [ts_rank_eq, ts_rank_cd_eq, optTruthy, Value.truthy, hn,
      Value.isArray, Value.isNumber]

/-- C1 witness: the amended statement applied at weights `[0.1, 0.2]`,
empty vector and query fragments, and the falsy normalization number 0. -/
theorem C1_amended_witness :
    (⟨"0", true⟩ : JSNum).falsy = true ∧
    ts_rank (Value.arr [⟨"0.1", false⟩, ⟨"0.2", false⟩]) (Value.frag [])
        (some (Value.frag [])) (some (Value.num ⟨"0", true⟩)) =
      ts_rank (Value.arr [⟨"0.1", false⟩, ⟨"0.2", false⟩]) (Value.frag [])
        (some (Value.frag [])) none :=
  ⟨rfl, (C1_amended_zero_normalization_dropped
    (Value.arr [⟨"0.1", false⟩, ⟨"0.2", false⟩]) (Value.frag [])
    (some (Value.frag [])) [] [] ⟨"0", true⟩ rfl).1⟩

/-- C5 counterexample: with the payload argument present but equal to the
empty string, `to_tsquery("english", "")` does not render the two-slot
template: the truthiness test on the payload fails and the one-slot
template is rendered with the leading string `english` bound in the payload
slot. -/
theorem C5_counterexample :
    to_tsquery (Value.str "english") (some (Value.str "")) =
      [Chunk.text "to_tsquery(", Chunk.bound (Value.str "english"),
        Chunk.text ")"] ∧
    bindingsOf (to_tsquery (Value.str "english") (some (Value.str ""))) =
      [Value.str "english"] ∧
    queryText (to_tsquery (Value.str "english") (some (Value.str ""))) ≠
      queryText (sqlTag ["to_tsquery(", ", ", ")"]
        [Value.str "english", Value.str ""]) := by
  refine ⟨rfl, rfl, ?_⟩
  intro h
  simp only [queryText, sqlTag] at h
  exact absurd h (by decide)

/-- C5 amended: for each operation with an optional configuration argument,
a 2-argument call whose second (payload) argument is truthy — any
non-empty string, column, or fragment — classifies the leading argument as
configuration and renders the two-slot template with configuration bound
first and payload second; a falsy payload (the empty string) instead
renders the one-slot template with the leading argument in the payload
slot. In particular `to_tsquery("english", "Drizzle")` renders
`to_tsquery(<configuration-slot>, <query-slot>)` with `english` then
`Drizzle`. -/
theorem C5_amended_configuration_classification :
    ∀ (a1 a2 : Value), a2.truthy = true →
      (to_tsvector a1 (some a2) =
        [Chunk.text "to_tsvector(", Chunk.bound a1, Chunk.text ", ",
          Chunk.bound a2, Chunk.text ")"] ∧
       to_tsquery a1 (some a2) =
        [Chunk.text "to_tsquery(", Chunk.bound a1, Chunk.text ", ",
          Chunk.bound a2, Chunk.text ")"] ∧
       plainto_tsquery a1 (some a2) =
        [Chunk.text "plainto_tsquery(", Chunk.bound a1, Chunk.text ", ",
          Chunk.bound a2, Chunk.text ")"] ∧
       phraseto_tsquery a1 (some a2) =
        [Chunk.text "phraseto_tsquery(", Chunk.bound a1, Chunk.text ", ",
          Chunk.bound a2, Chunk.text ")"] ∧
       websearch_to_tsquery a1 (some a2) =
        [Chunk.text "websearch_to_tsquery(", Chunk.bound a1, Chunk.text ", ",
          Chunk.bound a2, Chunk.text ")"] ∧
       to_tsquery (Value.str "english") (some (Value.str "Drizzle")) =
        [Chunk.text "to_tsquery(", Chunk.bound (Value.str "english"),
          Chunk.text ", ", Chunk.bound (Value.str "Drizzle"), Chunk.text ")"]) := by
  intro a1 a2 h
  refine ⟨?_, ?_, ?_, ?_, ?_, rfl⟩ <;>
    simp only [to_tsvector, to_tsquery, plainto_tsquery, phraseto_tsquery,
      websearch_to_tsquery, h, if_true, sqlTag]

/-- C5 witness: the amended statement applied at configuration `english`
and payload `Drizzle`, whose truthiness holds. -/
theorem C5_amended_witness :
    (Value.str "Drizzle").truthy = true ∧
    to_tsquery (Value.str "english") (some (Value.str "Drizzle")) =
      [Chunk.text "to_tsquery(", Chunk.bound (Value.str "english"),
        Chunk.text ", ", Chunk.bound (Value.str "Drizzle"), Chunk.text ")"] :=
  ⟨rfl, (C5_amended_configuration_classification (Value.str "english")
    (Value.str "Drizzle") rfl).2.1⟩

/-- C3: for every call to `ts_rank` or `ts_rank_cd` the first argument is
classified as weights — i.e. the weights segment is rendered — exactly when
it is an array, a third argument is present, and the second argument is not
a plain number; both operations share this rule, and when it fires the
remaining arguments shift one slot right: the second argument is bound in
the vector slot, the third in the query slot, and the fourth becomes the
normalization argument, bound in the trailing slot under the module's
uniform rule that a trailing normalization renders only when truthy. -/
theorem C3_weights_classification :
    ∀ (a1 a2 : Value) (a3 a4 : Option Value),
      mentionsStringToArray (ts_rank a1 a2 a3 a4) =
        (a1.isArray && !a2.isNumber && a3.isSome) ∧
      mentionsStringToArray (ts_rank_cd a1 a2 a3 a4) =
        (a1.isArray && !a2.isNumber && a3.isSome) ∧
      (∀ (w : List JSNum) (q : Value), a1 = Value.arr w → a2.isNumber = false →
        a3 = some q →
        bindingsOf (ts_rank a1 a2 a3 a4) =
          Value.str (joinComma w) :: a2 :: q ::
            (if optTruthy a4 then a4.toList else []) ∧
        bindingsOf (ts_rank_cd a1 a2 a3 a4) =
          Value.str (joinComma w) :: a2 :: q ::
            (if optTruthy a4 then a4.toList else [])) := by
  intro a1 a2 a3 a4
  refine ⟨?_, ?_, ?_⟩
  · rw [ts_rank_eq]
    cases h : (a1.isArray && !a2.isNumber && a3.isSome)
    · cases h3 : optTruthy a3 <;> rfl
    · cases h4 : optTruthy a4 <;> rfl
  · rw [ts_rank_cd_eq]
    cases h : (a1.isArray && !a2.isNumber && a3.isSome)
    · cases h3 : optTruthy a3 <;> rfl
    · cases h4 : optTruthy a4 <;> rfl
  · intro w q hw h2 hq
    subst hw; subst hq
    rcases a4 with _ | a4v
    · constructor <;>
        simp [ts_rank_eq, ts_rank_cd_eq, h2, Value.isArray, Value.arrElems,
          optTruthy, bindingsOf]
    · cases h4 : a4v.truthy <;> constructor <;>
        simp [ts_rank_eq, ts_rank_cd_eq, h2, Value.isArray, Value.arrElems,
          optTruthy, h4, bindingsOf]

/-- C3 witness: the classification applied at a 4-argument weights call
with a truthy normalization: the second argument lands in the vector slot,
the third in the query slot, and the fourth in the trailing slot. -/
theorem C3_weights_classification_witness :
    (Value.frag [] : Value).isNumber = false ∧
    bindingsOf (ts_rank (Value.arr [⟨"1", false⟩]) (Value.frag [])
        (some (Value.frag [])) (some (Value.num ⟨"2", false⟩))) =
      [Value.str "1", Value.frag [], Value.frag [], Value.num ⟨"2", false⟩] := by
  refine ⟨rfl, ?_⟩
  have h := ((C3_weights_classification (Value.arr [⟨"1", false⟩]) (Value.frag [])
    (some (Value.frag [])) (some (Value.num ⟨"2", false⟩))).2.2
    [⟨"1", false⟩] (Value.frag []) rfl rfl rfl).1
  simpa using h

/-- C6: every exported operation is a pure, total function of its
arguments: for every argument tuple it returns a fragment that is the
composer applied to one of the operation's fixed templates — no error of
the module's own can arise, and any failure on an interpolated value is the
composer's. -/
theorem C6_total_fixed_templates :
    ∀ (a1 a2 : Value) (o a3 a4 : Option Value) (v : SQLFrag) (w : Weight),
      (∃ vals, to_tsvector a1 o = sqlTag ["to_tsvector(", ", ", ")"] vals ∨
        to_tsvector a1 o = sqlTag ["to_tsvector(", ")"] vals) ∧
      (∃ vals, to_tsquery a1 o = sqlTag ["to_tsquery(", ", ", ")"] vals ∨
        to_tsquery a1 o = sqlTag ["to_tsquery(", ")"] vals) ∧
      (∃ vals, plainto_tsquery a1 o = sqlTag ["plainto_tsquery(", ", ", ")"] vals ∨
        plainto_tsquery a1 o = sqlTag ["plainto_tsquery(", ")"] vals) ∧
      (∃ vals, phraseto_tsquery a1 o = sqlTag ["phraseto_tsquery(", ", ", ")"] vals ∨
        phraseto_tsquery a1 o = sqlTag ["phraseto_tsquery(", ")"] vals) ∧
      (∃ vals, websearch_to_tsquery a1 o =
          sqlTag ["websearch_to_tsquery(", ", ", ")"] vals ∨
        websearch_to_tsquery a1 o = sqlTag ["websearch_to_tsquery(", ")"] vals) ∧
      (∃ vals, ts_rank a1 a2 a3 a4 =
          sqlTag ["ts_rank(string_to_array(", ", \x27,\x27)::float4[], ", ", ",
            ", ", ")"] vals ∨
        ts_rank a1 a2 a3 a4 =
          sqlTag ["ts_rank(string_to_array(", ", \x27,\x27)::float4[], ", ", ",
            ")"] vals ∨
        ts_rank a1 a2 a3 a4 = sqlTag ["ts_rank(", ", ", ", ", ")"] vals ∨
        ts_rank a1 a2 a3 a4 = sqlTag ["ts_rank(", ", ", ")"] vals) ∧
      (∃ vals, ts_rank_cd a1 a2 a3 a4 =
          sqlTag ["ts_rank_cd(string_to_array(", ", \x27,\x27)::float4[], ", ", ",
            ", ", ")"] vals ∨
        ts_rank_cd a1 a2 a3 a4 =
          sqlTag ["ts_rank_cd(string_to_array(", ", \x27,\x27)::float4[], ", ", ",
            ")"] vals ∨
        ts_rank_cd a1 a2 a3 a4 = sqlTag ["ts_rank_cd(", ", ", ", ", ")"] vals ∨
        ts_rank_cd a1 a2 a3 a4 = sqlTag ["ts_rank_cd(", ", ", ")"] vals) ∧
      (∃ vals, setweight v w = sqlTag ["setweight(", ", ", ")"] vals) := by
  intro a1 a2 o a3 a4 v w
  refine ⟨?_, ?_, ?_, ?_, ?_, ?_, ?_, ⟨[Value.frag v, Value.str w.toStr], rfl⟩⟩
  · rcases o with _ | b
    · exact ⟨[a1], Or.inr rfl⟩
    · cases hb : b.truthy
      · exact ⟨[a1], Or.inr (by simp [to_tsvector, hb])⟩
      · exact ⟨[a1, b], Or.inl (by simp [to_tsvector, hb])⟩
  · rcases o with _ | b
    · exact ⟨[a1], Or.inr rfl⟩
    · cases hb : b.truthy
      · exact ⟨[a1], Or.inr (by simp [to_tsquery, hb])⟩
      · exact ⟨[a1, b], Or.inl (by simp [to_tsquery, hb])⟩
  · rcases o with _ | b
    · exact ⟨[a1], Or.inr rfl⟩
    · cases hb : b.truthy
      · exact ⟨[a1], Or.inr (by simp [plainto_tsquery, hb])⟩
      · exact ⟨[a1, b], Or.inl (by simp [plainto_tsquery, hb])⟩
  · rcases o with _ | b
    · exact ⟨[a1], Or.inr rfl⟩
    · cases hb : b.truthy
      · exact ⟨[a1], Or.inr (by simp [phraseto_tsquery, hb])⟩
      · exact ⟨[a1, b], Or.inl (by simp [phraseto_tsquery, hb])⟩
  · rcases o with _ | b
    · exact ⟨[a1], Or.inr rfl⟩
    · cases hb : b.truthy
      · exact ⟨[a1], Or.inr (by simp [websearch_to_tsquery, hb])⟩
      · exact ⟨[a1, b], Or.inl (by simp [websearch_to_tsquery, hb])⟩
  · cases hg : (a1.isArray && !a2.isNumber && a3.isSome)
    · cases h3 : optTruthy a3
      · exact ⟨[a1, a2], Or.inr (Or.inr (Or.inr
          (by rw [ts_rank_eq, hg, h3]; rfl)))⟩
      · exact ⟨[a1, a2, a3.getD (Value.str "")], Or.inr (Or.inr (Or.inl
          (by rw [ts_rank_eq, hg, h3]; rfl)))⟩
    · cases h4 : optTruthy a4
      · exact ⟨[Value.str (joinComma a1.arrElems), a2, a3.getD (Value.str "")],
          Or.inr (Or.inl (by rw [ts_rank_eq, hg, h4]; rfl))⟩
      · exact ⟨[Value.str (joinComma a1.arrElems), a2, a3.getD (Value.str ""),
          a4.getD (Value.str "")],
          Or.inl (by rw [ts_rank_eq, hg, h4]; rfl)⟩
  · cases hg : (a1.isArray && !a2.isNumber && a3.isSome)
    · cases h3 : optTruthy a3
      · exact ⟨[a1, a2], Or.inr (Or.inr (Or.inr
          (by rw [ts_rank_cd_eq, hg, h3]; rfl)))⟩
      · exact ⟨[a1, a2, a3.getD (Value.str "")], Or.inr (Or.inr (Or.inl
          (by rw [ts_rank_cd_eq, hg, h3]; rfl)))⟩
    · cases h4 : optTruthy a4
      · exact ⟨[Value.str (joinComma a1.arrElems), a2, a3.getD (Value.str "")],
          Or.inr (Or.inl (by rw [ts_rank_cd_eq, hg, h4]; rfl))⟩
      · exact ⟨[Value.str (joinComma a1.arrElems), a2, a3.getD (Value.str ""),
          a4.getD (Value.str "")],
          Or.inl (by rw [ts_rank_cd_eq, hg, h4]; rfl)⟩

/-- C8: every exported operation is deterministic: two calls with identical
argument tuples yield fragments with identical rendered text and identical
interpolation bindings. -/
theorem C8_deterministic_rendering :
    ∀ (a1 a2 b1 b2 : Value) (a3 a4 b3 b4 : Option Value) (v w : SQLFrag)
      (l m : Weight),
      a1 = b1 → a2 = b2 → a3 = b3 → a4 = b4 → v = w → l = m →
      ((queryText (to_tsvector a1 a3) = queryText (to_tsvector b1 b3) ∧
        bindingsOf (to_tsvector a1 a3) = bindingsOf (to_tsvector b1 b3)) ∧
       (queryText (to_tsquery a1 a3) = queryText (to_tsquery b1 b3) ∧
        bindingsOf (to_tsquery a1 a3) = bindingsOf (to_tsquery b1 b3)) ∧
       (queryText (plainto_tsquery a1 a3) = queryText (plainto_tsquery b1 b3) ∧
        bindingsOf (plainto_tsquery a1 a3) = bindingsOf (plainto_tsquery b1 b3)) ∧
       (queryText (phraseto_tsquery a1 a3) = queryText (phraseto_tsquery b1 b3) ∧
        bindingsOf (phraseto_tsquery a1 a3) = bindingsOf (phraseto_tsquery b1 b3)) ∧
       (queryText (websearch_to_tsquery a1 a3) =
          queryText (websearch_to_tsquery b1 b3) ∧
        bindingsOf (websearch_to_tsquery a1 a3) =
          bindingsOf (websearch_to_tsquery b1 b3)) ∧
       (queryText (ts_rank a1 a2 a3 a4) = queryText (ts_rank b1 b2 b3 b4) ∧
        bindingsOf (ts_rank a1 a2 a3 a4) = bindingsOf (ts_rank b1 b2 b3 b4)) ∧
       (queryText (ts_rank_cd a1 a2 a3 a4) = queryText (ts_rank_cd b1 b2 b3 b4) ∧
        bindingsOf (ts_rank_cd a1 a2 a3 a4) = bindingsOf (ts_rank_cd b1 b2 b3 b4)) ∧
       (queryText (setweight v l) = queryText (setweight w m) ∧
        bindingsOf (setweight v l) = bindingsOf (setweight w m))) := by
  intro a1 a2 b1 b2 a3 a4 b3 b4 v w l m h1 h2 h3 h4 h5 h6
  subst h1; subst h2; subst h3; subst h4; subst h5; subst h6
  exact ⟨⟨rfl, rfl⟩, ⟨rfl, rfl⟩, ⟨rfl, rfl⟩, ⟨rfl, rfl⟩, ⟨rfl, rfl⟩,
    ⟨rfl, rfl⟩, ⟨rfl, rfl⟩, ⟨rfl, rfl⟩⟩

/-- C8 witness: determinism applied at the call
`to_tsquery("english", "Drizzle")` repeated with the same argument tuple. -/
theorem C8_deterministic_witness :
    Value.str "english" = Value.str "english" ∧
    queryText (to_tsquery (Value.str "english") (some (Value.str "Drizzle"))) =
      queryText (to_tsquery (Value.str "english") (some (Value.str "Drizzle"))) :=
  ⟨rfl, ((C8_deterministic_rendering (Value.str "english") (Value.frag [])
    (Value.str "english") (Value.frag []) (some (Value.str "Drizzle")) none
    (some (Value.str "Drizzle")) none [] [] Weight.A Weight.A
    rfl rfl rfl rfl rfl rfl).2.1).1⟩

end FullTextSearch
